import Mathlib

/-!
Shallow embedding of the diff-orchestration engine in `data_diff/dbt.py`:
schema reconciliation and comparable-column selection (`_local_diff`),
diff-variable resolution (`_get_diff_vars`), the per-model dispatch loop
(`dbt_diff`), and the remote result processing (`_cloud_diff`).

Python dictionaries mapping column name to a column descriptor tuple are
embedded as association lists `List (String × String)`; the code only reads
index 1 of the descriptor tuple (the column type), so the association value
is that type string.
-/

namespace DataDiff

/-- A fetched table schema: column name ↦ column type (index 1 of the
descriptor tuple returned by `get_schema()` in the source). -/
abbrev Schema := List (String × String)

/-- The name set of a schema (`table_columns.keys()`). -/
def keys (s : Schema) : List String := s.map Prod.fst

/-- Python truthiness of an optional string (`if x:` on `Optional[str]`):
`None` and the empty string are falsy. -/
def truthyO : Option String → Bool
  | none => false
  | some s => !s.isEmpty

/-- Python truthiness of a string (`if x:`): the empty string is falsy. -/
def truthyS (s : String) : Bool := !s.isEmpty

/-- Python's `str.upper()` (ASCII case mapping), embedded as a per-character
uppercase over the string's characters. -/
def pyUpper (s : String) : String := String.mk (s.data.map Char.toUpper)

theorem contains_iff_mem {l : List String} {a : String} :
    l.contains a = true ↔ a ∈ l := by simp

/-- `table1_column_names.intersection(table2_column_names)` from
`_local_diff`: names present in both schemas. -/
def column_set_intersection (t1 t2 : Schema) : List String :=
  (keys t1).filter (fun k => (keys t2).contains k)

/-- `columns_added = table1_column_names.difference(table2_column_names)`
from `_local_diff` (table1 is the dev side). -/
def columns_added (t1 t2 : Schema) : List String :=
  (keys t1).filter (fun k => !(keys t2).contains k)

/-- `columns_removed = table2_column_names.difference(table1_column_names)`
from `_local_diff` (table2 is the prod side). -/
def columns_removed (t1 t2 : Schema) : List String :=
  (keys t2).filter (fun k => !(keys t1).contains k)

/-- The per-entry test `k in table2_columns and v[1] != table2_columns[k][1]`
from `_local_diff`, via association-list lookup. -/
def typeChangedB (t2 : Schema) (kv : String × String) : Bool :=
  match List.lookup kv.1 t2 with
  | some ty => ty != kv.2
  | none => false

/-- `columns_type_changed = {k for k, v in table1_columns.items() if k in
table2_columns and v[1] != table2_columns[k][1]}` from `_local_diff`. -/
def columns_type_changed (t1 t2 : Schema) : List String :=
  (t1.filter (fun kv => typeChangedB t2 kv)).map Prod.fst

/-- `column_set` right after the `if columns_type_changed:` subtraction in
`_local_diff` (the subtraction only runs when the set is non-empty, a no-op
guard preserved here). -/
def column_set_after_type_changed (t1 t2 : Schema) : List String :=
  if (columns_type_changed t1 t2).isEmpty then column_set_intersection t1 t2
  else (column_set_intersection t1 t2).filter
    (fun k => !(columns_type_changed t1 t2).contains k)

/-- `column_set = column_set - set(diff_vars.primary_keys)` from
`_local_diff`: the set remaining after the intersection, type-changed and
primary-key subtractions, before include/exclude filtering. -/
def column_set_after_pk (t1 t2 : Schema) (primary_keys : List String) :
    List String :=
  (column_set_after_type_changed t1 t2).filter (fun k => !primary_keys.contains k)

/-- The comparable column set built by `_local_diff` lines 209–237: the
post-subtraction set filtered by the include list (when non-empty,
case-insensitive) and then by the exclude list (when non-empty,
case-insensitive). -/
def select_comparable (t1 t2 : Schema) (primary_keys include_columns
    exclude_columns : List String) : List String :=
  let cs := column_set_after_pk t1 t2 primary_keys
  let cs := if include_columns.isEmpty then cs
    else cs.filter (fun x => (include_columns.map pyUpper).contains (pyUpper x))
  if exclude_columns.isEmpty then cs
  else cs.filter (fun x => !(exclude_columns.map pyUpper).contains (pyUpper x))

/- ## Helper lemmas -/

theorem lookup_some_mem_keys {l : Schema} {k v : String}
    (h : List.lookup k l = some v) : k ∈ keys l := by
  induction l with
  | nil => simp [List.lookup] at h
  | cons p t ih =>
    rw [List.lookup_cons] at h
    by_cases hk : (k == p.1) = true
    · have : k = p.1 := eq_of_beq hk
      simp [keys, this]
    · simp only [hk, Bool.false_eq_true, if_false, cond_false] at h
      have := ih h
      simp [keys] at this ⊢
      exact Or.inr this

theorem mem_column_set_after_pk {t1 t2 : Schema} {pks : List String}
    {k : String} (h : k ∈ column_set_after_pk t1 t2 pks) :
    k ∈ column_set_after_type_changed t1 t2 ∧ k ∉ pks := by
  unfold column_set_after_pk at h
  rw [List.mem_filter] at h
  refine ⟨h.1, ?_⟩
  have := h.2
  simpa using this

theorem mem_after_type_changed_not_changed {t1 t2 : Schema} {k : String}
    (h : k ∈ column_set_after_type_changed t1 t2) :
    k ∉ columns_type_changed t1 t2 := by
  unfold column_set_after_type_changed at h
  by_cases he : (columns_type_changed t1 t2).isEmpty
  · rw [if_pos he] at h
    rw [List.isEmpty_iff] at he
    simp [he]
  · rw [if_neg he] at h
    rw [List.mem_filter] at h
    have := h.2
    simpa using this

theorem mem_select_comparable {t1 t2 : Schema}
    {pks inc exc : List String} {k : String}
    (h : k ∈ select_comparable t1 t2 pks inc exc) :
    k ∈ column_set_after_pk t1 t2 pks ∧
      ((exc.map pyUpper).contains (pyUpper k) = false) := by
  unfold select_comparable at h
  by_cases hexc : exc.isEmpty
  · rw [List.isEmpty_iff] at hexc
    subst hexc
    simp only [List.isEmpty_nil, if_true, List.map_nil] at h ⊢
    constructor
    · by_cases hinc : inc.isEmpty
      · simpa [hinc] using h
      · simp only [hinc, if_false, Bool.false_eq_true] at h
        exact (List.mem_filter.mp h).1
    · simp
  · simp only [hexc, if_false, Bool.false_eq_true] at h
    rw [List.mem_filter] at h
    refine ⟨?_, ?_⟩
    · by_cases hinc : inc.isEmpty
      · simpa [hinc] using h.1
      · have h1 := h.1
        simp only [hinc, if_false, Bool.false_eq_true] at h1
        exact (List.mem_filter.mp h1).1
    · have := h.2
      simpa using this

/- ## Claim theorems: schema reconciliation (C1, C2) -/

/-- C1: for all fetched schemas, primary keys and include/exclude lists, the
comparable column set passed to `diff_tables` contains no primary-key
column, contains no type-changed column, contains no column whose upper-cased
name occurs among the upper-cased exclude names (so exclude wins even when
include also matches), and is empty whenever the include list is non-empty
and no member of the post-subtraction set matches it case-insensitively. -/
theorem select_comparable_correct (t1 t2 : Schema)
    (pks inc exc : List String) :
    (∀ k ∈ select_comparable t1 t2 pks inc exc, k ∉ pks) ∧
    (∀ k ∈ select_comparable t1 t2 pks inc exc,
        k ∉ columns_type_changed t1 t2) ∧
    (∀ k ∈ select_comparable t1 t2 pks inc exc,
        (exc.map pyUpper).contains (pyUpper k) = false) ∧
    (inc ≠ [] →
      (∀ k ∈ column_set_after_pk t1 t2 pks,
        (inc.map pyUpper).contains (pyUpper k) = false) →
      select_comparable t1 t2 pks inc exc = []) := by
  refine ⟨?_, ?_, ?_, ?_⟩
  · intro k hk
    exact (mem_column_set_after_pk (mem_select_comparable hk).1).2
  · intro k hk
    exact mem_after_type_changed_not_changed
      (mem_column_set_after_pk (mem_select_comparable hk).1).1
  · intro k hk
    exact (mem_select_comparable hk).2
  · intro hinc hnone
    have hinc' : inc.isEmpty = false := by
      cases inc with
      | nil => simp at hinc
      | cons a l => rfl
    unfold select_comparable
    simp only [hinc', Bool.false_eq_true, if_false]
    have hfilter :
        (column_set_after_pk t1 t2 pks).filter
          (fun x => (inc.map pyUpper).contains (pyUpper x)) = [] := by
      rw [List.filter_eq_nil_iff]
      intro k hk
      rw [hnone k hk]
      simp
    rw [hfilter]
    cases hexc : exc.isEmpty <;> simp

/-- Closed witness for `select_comparable_correct`: with dev schema
`{id: int, b: int}`, prod schema `{id: int, b: text}` and primary key `id`,
the column `b` is type-changed so the comparable set excludes it; we check
the emptiness clause with an include list matching nothing. -/
theorem select_comparable_correct_witness :
    ((["B2"] : List String) ≠ [] ∧
      (∀ k ∈ column_set_after_pk [("id", "int"), ("a", "int")]
          [("id", "int"), ("a", "int")] ["id"],
        ((["B2"].map pyUpper).contains (pyUpper k) = false))) ∧
    select_comparable [("id", "int"), ("a", "int")]
      [("id", "int"), ("a", "int")] ["id"] ["B2"] [] = [] := by
  refine ⟨⟨by decide, by decide⟩, ?_⟩
  exact (select_comparable_correct [("id", "int"), ("a", "int")]
    [("id", "int"), ("a", "int")] ["id"] ["B2"] []).2.2.2 (by decide) (by decide)

/-- C2: reconciliation of a dev schema `t1` against a prod schema `t2`
yields `columns_added` = t1's names minus t2's names, `columns_removed` =
t2's names minus t1's names, and `columns_type_changed` a subset of the
intersection of the two name sets. -/
theorem reconcile_correct (t1 t2 : Schema) :
    (∀ k, k ∈ columns_added t1 t2 ↔ (k ∈ keys t1 ∧ k ∉ keys t2)) ∧
    (∀ k, k ∈ columns_removed t1 t2 ↔ (k ∈ keys t2 ∧ k ∉ keys t1)) ∧
    (∀ k ∈ columns_type_changed t1 t2, k ∈ keys t1 ∧ k ∈ keys t2) := by
  refine ⟨?_, ?_, ?_⟩
  · intro k
    unfold columns_added
    rw [List.mem_filter]
    simp
  · intro k
    unfold columns_removed
    rw [List.mem_filter]
    simp
  · intro k hk
    unfold columns_type_changed at hk
    rw [List.mem_map] at hk
    obtain ⟨kv, hkv, hfst⟩ := hk
    rw [List.mem_filter] at hkv
    constructor
    · subst hfst
      exact List.mem_map.mpr ⟨kv, hkv.1, rfl⟩
    · have := hkv.2
      unfold typeChangedB at this
      cases hl : List.lookup kv.1 t2 with
      | none => rw [hl] at this; simp at this
      | some ty =>
        subst hfst
        exact lookup_some_mem_keys hl

/-- Closed witness for `reconcile_correct`: the type-changed column `b` of
the concrete schema pair is in both name sets. -/
theorem reconcile_correct_witness :
    "b" ∈ columns_type_changed [("id", "int"), ("b", "int")]
        [("id", "int"), ("b", "text")] ∧
    ("b" ∈ keys [("id", "int"), ("b", "int")] ∧
      "b" ∈ keys [("id", "int"), ("b", "text")]) :=
  ⟨by decide, (reconcile_correct [("id", "int"), ("b", "int")]
    [("id", "int"), ("b", "text")]).2.2 "b" (by decide)⟩

/- ## Diff-variable resolution (`_get_diff_vars`) -/

/-- The per-model `config:` block read by `_get_diff_vars`
(`model.config.database`, `model.config.schema_`). -/
structure ModelConfig where
  database : Option String
  schema_ : Option String

/-- The model descriptor fields read by `_get_diff_vars`. -/
structure Model where
  name : String
  database : String
  schema_ : String
  aliasName : String
  config : ModelConfig

/-- The per-model `meta:` diff configuration returned by
`dbt_parser.get_datadiff_model_config(model.meta)`. -/
structure DatadiffModelConfig where
  where_filter : Option String
  include_columns : List String
  exclude_columns : List String

/-- The slice of `DbtParser` state consumed by `_get_diff_vars`; the
primary-key and model-config lookups are external collaborator calls,
embedded as function-valued fields. -/
structure DbtParserState where
  get_pk : Model → List String
  requires_upper : Bool
  connection : List (String × Option String)
  threads : Option Nat
  model_config : Model → DatadiffModelConfig

/-- `TDiffVars` from `dbt.py` (pydantic model). -/
structure TDiffVars where
  dev_path : List String
  prod_path : List String
  primary_keys : List String
  connection : List (String × Option String)
  threads : Option Nat
  where_filter : Option String
  include_columns : List String
  exclude_columns : List String
deriving DecidableEq

/-- Prod database resolution in `_get_diff_vars` lines 142–147: model-level
override, else project-level override, else the dev database. -/
def resolveProdDatabase (config_prod_database : Option String) (m : Model) :
    String :=
  if truthyO m.config.database then m.config.database.getD ""
  else if truthyO config_prod_database then config_prod_database.getD ""
  else m.database

/-- Left-to-right, non-overlapping replacement of `pat` by `rep` over a
character list, with a skip counter for the remainder of a matched
occurrence (structurally recursive worker for `pyReplace`). -/
def replaceCharsAux (pat rep : List Char) : List Char → Nat → List Char
  | [], _ => []
  | c :: rest, skip =>
    match skip with
    | n + 1 => replaceCharsAux pat rep rest n
    | 0 =>
      if pat ≠ [] ∧ pat.isPrefixOf (c :: rest) then
        rep ++ replaceCharsAux pat rep rest (pat.length - 1)
      else
        c :: replaceCharsAux pat rep rest 0

/-- Python's `str.replace(old, new)` for a non-empty pattern (the source's
only pattern is the constant `"<custom_schema>"`): every occurrence is
replaced, scanning left to right without overlap. -/
def pyReplace (s pat rep : String) : String :=
  if pat.isEmpty then s
  else String.mk (replaceCharsAux pat.data rep.data s.data 0)

/-- Prod schema resolution in `_get_diff_vars` lines 149–165.  The branch
structure is the source's: only when the project configures `prod_schema`
does a model-level custom schema demand a `prod_custom_schema` template
(else a `ValueError` is raised); without a `prod_schema` configuration the
prod schema falls back to the dev schema. -/
def resolveProdSchema (config_prod_schema config_prod_custom_schema :
    Option String) (m : Model) : Except String String :=
  if truthyO config_prod_schema then
    let custom_schema := m.config.schema_
    if truthyO custom_schema then
      if !truthyO config_prod_custom_schema then
        Except.error ("Found a custom schema on model " ++ m.name ++
          ", but no value for\nvars:\n  data_diff:\n    prod_custom_schema:\nPlease set a value!\n" ++
          "For more details see: https://docs.datafold.com/development_testing/open_source")
      else
        Except.ok (pyReplace (config_prod_custom_schema.getD "")
          "<custom_schema>" (custom_schema.getD ""))
    else Except.ok (config_prod_schema.getD "")
  else Except.ok m.schema_

/-- `_get_diff_vars` from `dbt.py`: resolves the dev/prod qualified paths
(blank segments dropped, upper-cased when the backend requires it), primary
keys, and per-model filter/include/exclude configuration.  The raised
`ValueError` is embedded as `Except.error`. -/
def get_diff_vars (p : DbtParserState) (config_prod_database
    config_prod_schema config_prod_custom_schema : Option String)
    (m : Model) : Except String TDiffVars := do
  let dev_database := m.database
  let dev_schema := m.schema_
  let primary_keys := p.get_pk m
  let prod_database := resolveProdDatabase config_prod_database m
  let prod_schema ← resolveProdSchema config_prod_schema
    config_prod_custom_schema m
  let dev_qualified_list :=
    if p.requires_upper then
      (([dev_database, dev_schema, m.aliasName].filter truthyS).map pyUpper)
    else ([dev_database, dev_schema, m.aliasName].filter truthyS)
  let prod_qualified_list :=
    if p.requires_upper then
      (([prod_database, prod_schema, m.aliasName].filter truthyS).map pyUpper)
    else ([prod_database, prod_schema, m.aliasName].filter truthyS)
  let primary_keys :=
    if p.requires_upper then primary_keys.map pyUpper else primary_keys
  let datadiff_model_config := p.model_config m
  Except.ok
    { dev_path := dev_qualified_list
      prod_path := prod_qualified_list
      primary_keys := primary_keys
      connection := p.connection
      threads := p.threads
      where_filter := datadiff_model_config.where_filter
      include_columns := datadiff_model_config.include_columns
      exclude_columns := datadiff_model_config.exclude_columns }

/-- A Boolean error-discriminator for `Except`. -/
def isErr : Except String α → Bool
  | Except.error _ => true
  | Except.ok _ => false

/- ## Claim theorems: diff-variable resolution (C3) -/

/-- A concrete parser state used by closed counterexamples and witnesses. -/
def parserW : DbtParserState :=
  { get_pk := fun _ => ["id"]
    requires_upper := false
    connection := [("type", some "duckdb")]
    threads := some 1
    model_config := fun _ => ⟨none, [], []⟩ }

/-- A concrete model declaring a custom schema (`config.schema_`). -/
def modelW : Model :=
  { name := "orders"
    database := "dev_db"
    schema_ := "dev_sch"
    aliasName := "orders_tbl"
    config := { database := none, schema_ := some "marts" } }

/-- C3 counterexample: a model that declares a custom schema, resolved with
no project-level custom-schema template (and no project-level `prod_schema`
either), does NOT raise — resolution succeeds and the prod schema falls back
to the dev schema.  This refutes the claim's unconditional "raises a
ConfigurationError". -/
theorem get_diff_vars_no_template_no_error :
    get_diff_vars parserW none none none modelW = Except.ok
      { dev_path := ["dev_db", "dev_sch", "orders_tbl"]
        prod_path := ["dev_db", "dev_sch", "orders_tbl"]
        primary_keys := ["id"]
        connection := [("type", some "duckdb")]
        threads := some 1
        where_filter := none
        include_columns := []
        exclude_columns := [] } := by
  rfl

/-- C3 (amended): when a project-level `prod_schema` override is configured,
a model with a custom schema and no `prod_custom_schema` template makes
`_get_diff_vars` raise; supplying a (non-empty) template yields a resolved
prod schema equal to the template with `<custom_schema>` replaced by the
model's custom schema. -/
theorem get_diff_vars_custom_schema (p : DbtParserState)
    (cpd cps cpcs : Option String) (m : Model)
    (hcps : truthyO cps = true)
    (hcustom : truthyO m.config.schema_ = true) :
    (truthyO cpcs = false →
      isErr (get_diff_vars p cpd cps cpcs m) = true) ∧
    (∀ t, cpcs = some t → truthyS t = true →
      resolveProdSchema cps cpcs m =
        Except.ok (pyReplace t "<custom_schema>" (m.config.schema_.getD ""))) := by
  constructor
  · intro hno
    unfold get_diff_vars resolveProdSchema
    simp only [hcps, hcustom, hno, if_true, Bool.not_false, if_pos]
    rfl
  · intro t ht htr
    unfold resolveProdSchema
    subst ht
    simp only [hcps, hcustom, if_true]
    have : truthyO (some t) = true := by
      unfold truthyO
      unfold truthyS at htr
      exact htr
    simp [this, Option.getD]

/-- Closed witness for `get_diff_vars_custom_schema` at a concrete model:
without a template resolution errors; with the template
`"prod_<custom_schema>"` the resolved prod schema substitutes the model's
custom schema `"marts"`. -/
theorem get_diff_vars_custom_schema_witness :
    (isErr (get_diff_vars parserW none (some "analytics") none modelW)
        = true) ∧
    resolveProdSchema (some "analytics") (some "prod_<custom_schema>")
        modelW = Except.ok "prod_marts" := by
  refine ⟨?_, ?_⟩
  · exact (get_diff_vars_custom_schema parserW none (some "analytics") none
      modelW (by decide) (by decide)).1 (by decide)
  · have h := (get_diff_vars_custom_schema parserW none (some "analytics")
      (some "prod_<custom_schema>") modelW (by decide) (by decide)).2
      "prod_<custom_schema>" rfl (by decide)
    have hval : pyReplace "prod_<custom_schema>" "<custom_schema>"
        (modelW.config.schema_.getD "") = "prod_marts" := by decide
    rw [hval] at h
    exact h

/- ## Local diff runner (`_local_diff`) -/

/-- `_diff_output_base(dev_path, prod_path)` from `dbt.py`: the report header
naming the prod↔dev pair. -/
def diff_output_base (dev_path prod_path : String) : String :=
  "\n[green]" ++ prod_path ++ " <> " ++ dev_path ++ "[/] \n"

/-- Modelled from the spec: `columns_added_template` lives in the missing
`utils.py`; §4.6 specifies a "columns added" block emitted only when the set
is non-empty. -/
def columns_added_template (cols : List String) : String :=
  "Columns added: " ++ String.intercalate ", " cols ++ "\n"

/-- Modelled from the spec: `columns_removed_template` from the missing
`utils.py`; a "columns removed" block. -/
def columns_removed_template (cols : List String) : String :=
  "Columns removed: " ++ String.intercalate ", " cols ++ "\n"

/-- Modelled from the spec: `columns_type_changed_template` from the missing
`utils.py`; a "columns type-changed" block. -/
def columns_type_changed_template (cols : List String) : String :=
  "Columns type changed: " ++ String.intercalate ", " cols ++ "\n"

/-- Modelled from the spec: `no_differences_template` from the missing
`utils.py`; §4.6 mandates a "no differences" line. -/
def no_differences_template : String := "No row differences\n"

/-- One use of a table handle opened by `_local_diff`: a schema fetch on the
dev handle (`table1.get_schema()`), on the prod handle
(`table2.get_schema()`), or the comparison call `diff_tables(table1,
table2, ...)`, which uses both handles. -/
inductive HandleUse
  | devGetSchema
  | prodGetSchema
  | runDiffTables
deriving DecidableEq

/-- The external collaborators of `_local_diff` for one model: the two
`get_schema()` calls (either may throw) and the materialised comparison
outcome (`list(diff)` emptiness and `diff.get_stats_string`). -/
structure LocalEnv where
  dev_get_schema : Except String Schema
  prod_get_schema : Except String Schema
  diff_nonempty : Bool
  stats_string : String

/-- The observable outcome of `_local_diff`: an uncaught exception, or the
single `rich.print` output — in both cases with the trace of handle uses. -/
inductive LocalResult
  | raised (e : String) (events : List HandleUse)
  | printed (out : String) (events : List HandleUse)
deriving DecidableEq

/-- `_local_diff` from `dbt.py`: fetch dev schema (a throw propagates),
fetch prod schema (a throw degrades to the "new model or no access" skip
report), reconcile, select comparable columns, run the comparison, and print
either the statistics report or the no-differences report. -/
def local_diff (env : LocalEnv) (diff_vars : TDiffVars) : LocalResult :=
  let dev_qualified_str := String.intercalate "." diff_vars.dev_path
  let prod_qualified_str := String.intercalate "." diff_vars.prod_path
  let diff_output_str := diff_output_base dev_qualified_str prod_qualified_str
  match env.dev_get_schema with
  | Except.error e => LocalResult.raised e [HandleUse.devGetSchema]
  | Except.ok table1_columns =>
    match env.prod_get_schema with
    | Except.error _ =>
      LocalResult.printed
        (diff_output_str ++ "[red]New model or no access to prod table.[/] \n")
        [HandleUse.devGetSchema, HandleUse.prodGetSchema]
    | Except.ok table2_columns =>
      let added := columns_added table1_columns table2_columns
      let removed := columns_removed table1_columns table2_columns
      let type_changed := columns_type_changed table1_columns table2_columns
      let diff_output_str := if !added.isEmpty then
        diff_output_str ++ columns_added_template added else diff_output_str
      let diff_output_str := if !removed.isEmpty then
        diff_output_str ++ columns_removed_template removed else diff_output_str
      let diff_output_str := if !type_changed.isEmpty then
        diff_output_str ++ columns_type_changed_template type_changed
        else diff_output_str
      let out := if env.diff_nonempty then
        diff_output_str ++ env.stats_string ++ " \n"
        else diff_output_str ++ no_differences_template
      LocalResult.printed out
        [HandleUse.devGetSchema, HandleUse.prodGetSchema,
          HandleUse.runDiffTables]

/- ## Claim theorems: local failure semantics (C4) -/

/-- C4: in a local run, a throwing dev-side schema fetch makes the whole
model job raise (the exception propagates with no comparison run), while a
throwing prod-side schema fetch yields the printed "new model or no access"
skip report: nothing is raised, the trace ends at the prod fetch — so the
dev handle is not used again afterward — and `diff_tables` is never
invoked. -/
theorem local_diff_failure_semantics (env : LocalEnv)
    (diff_vars : TDiffVars) :
    (∀ e, env.dev_get_schema = Except.error e →
      local_diff env diff_vars =
        LocalResult.raised e [HandleUse.devGetSchema]) ∧
    (∀ s e, env.dev_get_schema = Except.ok s →
      env.prod_get_schema = Except.error e →
      local_diff env diff_vars = LocalResult.printed
        (diff_output_base (String.intercalate "." diff_vars.dev_path)
            (String.intercalate "." diff_vars.prod_path) ++
          "[red]New model or no access to prod table.[/] \n")
        [HandleUse.devGetSchema, HandleUse.prodGetSchema]) := by
  constructor
  · intro e he
    unfold local_diff
    rw [he]
  · intro s e hs hp
    unfold local_diff
    rw [hs, hp]

/-- Closed witness for `local_diff_failure_semantics`: a concrete
environment whose prod schema fetch throws produces exactly the skip report
with no use of any handle after the prod fetch. -/
theorem local_diff_failure_semantics_witness :
    local_diff
      { dev_get_schema := Except.ok [("id", "int")]
        prod_get_schema := Except.error "permission denied"
        diff_nonempty := false
        stats_string := "" }
      { dev_path := ["d", "s", "t"], prod_path := ["d", "p", "t"]
        primary_keys := ["id"], connection := [], threads := none
        where_filter := none, include_columns := [], exclude_columns := [] } =
    LocalResult.printed
      (diff_output_base "d.s.t" "d.p.t" ++
        "[red]New model or no access to prod table.[/] \n")
      [HandleUse.devGetSchema, HandleUse.prodGetSchema] :=
  (local_diff_failure_semantics _ _).2 [("id", "int")] "permission denied"
    rfl rfl

/- ## Dispatcher (`dbt_diff` model loop, lines 106–126) -/

/-- The shared configuration the `dbt_diff` loop threads through every
model: the parser state, the three project-level prod overrides, the
backend mode, and (for the local backend) each model's external
collaborators. -/
structure DispatchConfig where
  parser : DbtParserState
  config_prod_database : Option String
  config_prod_schema : Option String
  config_prod_custom_schema : Option String
  is_cloud : Bool
  local_env : Model → LocalEnv

/-- The observable per-model effect of one iteration of the `dbt_diff`
loop: a remote job started on a daemon thread, a local diff run to
completion with its printed report, or the skipped-primary-key notice. -/
inductive DispatchAction
  | cloudStarted (diff_vars : TDiffVars)
  | localPrinted (out : String) (events : List HandleUse)
  | skippedNoPk (out : String)
deriving DecidableEq

/-- The notice printed by `dbt_diff` for a model with no resolved primary
key (lines 117–121). -/
def skipped_pk_output (diff_vars : TDiffVars) : String :=
  diff_output_base (String.intercalate "." diff_vars.dev_path)
      (String.intercalate "." diff_vars.prod_path) ++
    "Skipped due to unknown primary key. Add uniqueness tests, meta, or tags.\n"

/-- One iteration of the `dbt_diff` loop body: resolve diff variables (a
raised `ValueError` propagates), then dispatch on the primary-key list and
the backend mode.  A local job whose own execution raises also propagates
out of the loop; a cloud job is started on a daemon thread and cannot raise
into the loop. -/
def dispatch_model (cfg : DispatchConfig) (m : Model) :
    Except String DispatchAction :=
  match get_diff_vars cfg.parser cfg.config_prod_database
      cfg.config_prod_schema cfg.config_prod_custom_schema m with
  | Except.error e => Except.error e
  | Except.ok diff_vars =>
    if !diff_vars.primary_keys.isEmpty then
      if cfg.is_cloud then
        Except.ok (DispatchAction.cloudStarted diff_vars)
      else
        match local_diff (cfg.local_env m) diff_vars with
        | LocalResult.raised e _ => Except.error e
        | LocalResult.printed out evs =>
          Except.ok (DispatchAction.localPrinted out evs)
    else Except.ok (DispatchAction.skippedNoPk (skipped_pk_output diff_vars))

/-- The `for model in models:` loop of `dbt_diff`: actions accumulate in
iteration order until an uncaught exception aborts the remainder of the
run; the second component is that exception, if any. -/
def dbt_diff_loop (cfg : DispatchConfig) :
    List Model → List DispatchAction × Option String
  | [] => ([], none)
  | m :: ms =>
    match dispatch_model cfg m with
    | Except.error e => ([], some e)
    | Except.ok a =>
      let rest := dbt_diff_loop cfg ms
      (a :: rest.1, rest.2)

/- ## Claim theorems: dispatcher (C6, C7) -/

/-- C6: a model whose resolved primary-key list is empty produces exactly
the skipped-due-to-unknown-primary-key notice — neither the local
comparison nor a remote submission is invoked for it — and the loop
continues with the remaining models unchanged. -/
theorem dispatch_skips_empty_pk (cfg : DispatchConfig) (m : Model)
    (ms : List Model) (diff_vars : TDiffVars)
    (h : get_diff_vars cfg.parser cfg.config_prod_database
        cfg.config_prod_schema cfg.config_prod_custom_schema m =
      Except.ok diff_vars)
    (hpk : diff_vars.primary_keys = []) :
    dispatch_model cfg m =
      Except.ok (DispatchAction.skippedNoPk (skipped_pk_output diff_vars)) ∧
    dbt_diff_loop cfg (m :: ms) =
      (DispatchAction.skippedNoPk (skipped_pk_output diff_vars) ::
          (dbt_diff_loop cfg ms).1,
        (dbt_diff_loop cfg ms).2) := by
  have hd : dispatch_model cfg m =
      Except.ok (DispatchAction.skippedNoPk (skipped_pk_output diff_vars)) := by
    unfold dispatch_model
    rw [h]
    simp [hpk]
  refine ⟨hd, ?_⟩
  simp only [dbt_diff_loop, hd]

/-- Closed witness for `dispatch_skips_empty_pk`: a parser that resolves no
primary key makes the loop emit the skip notice for the head model and
process the (empty) tail normally. -/
theorem dispatch_skips_empty_pk_witness :
    (get_diff_vars
        { parserW with get_pk := fun _ => [] } none none none modelW =
      Except.ok
        { dev_path := ["dev_db", "dev_sch", "orders_tbl"]
          prod_path := ["dev_db", "dev_sch", "orders_tbl"]
          primary_keys := [], connection := [("type", some "duckdb")]
          threads := some 1, where_filter := none, include_columns := []
          exclude_columns := [] } ∧
      ([] : List String) = []) ∧
    dbt_diff_loop
        { parser := { parserW with get_pk := fun _ => [] }
          config_prod_database := none, config_prod_schema := none
          config_prod_custom_schema := none, is_cloud := false
          local_env := fun _ =>
            { dev_get_schema := Except.ok [], prod_get_schema := Except.ok []
              diff_nonempty := false, stats_string := "" } }
        [modelW] =
      (DispatchAction.skippedNoPk (skipped_pk_output
          { dev_path := ["dev_db", "dev_sch", "orders_tbl"]
            prod_path := ["dev_db", "dev_sch", "orders_tbl"]
            primary_keys := [], connection := [("type", some "duckdb")]
            threads := some 1, where_filter := none, include_columns := []
            exclude_columns := [] }) :: [], none) := by
  refine ⟨⟨by rfl, rfl⟩, ?_⟩
  exact (dispatch_skips_empty_pk
    { parser := { parserW with get_pk := fun _ => [] }
      config_prod_database := none, config_prod_schema := none
      config_prod_custom_schema := none, is_cloud := false
      local_env := fun _ =>
        { dev_get_schema := Except.ok [], prod_get_schema := Except.ok []
          diff_nonempty := false, stats_string := "" } }
    modelW []
    { dev_path := ["dev_db", "dev_sch", "orders_tbl"]
      prod_path := ["dev_db", "dev_sch", "orders_tbl"]
      primary_keys := [], connection := [("type", some "duckdb")]
      threads := some 1, where_filter := none, include_columns := []
      exclude_columns := [] } (by rfl) rfl).2

/-- A concrete model without a custom schema, diffed successfully before the
failing model in the C7 counterexample. -/
def model1W : Model :=
  { name := "customers"
    database := "dev_db"
    schema_ := "dev_sch"
    aliasName := "customers_tbl"
    config := { database := none, schema_ := none } }

/-- The concrete dispatch configuration of the C7 counterexample: local
mode, a project-level `prod_schema` but no custom-schema template, and
healthy local collaborators. -/
def cfgW : DispatchConfig :=
  { parser := parserW
    config_prod_database := none
    config_prod_schema := some "analytics"
    config_prod_custom_schema := none
    is_cloud := false
    local_env := fun _ =>
      { dev_get_schema := Except.ok [("id", "int"), ("a", "int")]
        prod_get_schema := Except.ok [("id", "int"), ("a", "int")]
        diff_nonempty := false
        stats_string := "" } }

/-- Discriminator: did a dispatch action run (and print) a local diff? -/
def isLocalPrinted : DispatchAction → Bool
  | DispatchAction.localPrinted _ _ => true
  | _ => false

/-- C7 counterexample: with a healthy first model and a second model whose
variable resolution raises the custom-schema configuration error, the run
aborts with a raised error — but only AFTER the first model has been fully
compared and reported, refuting "no partial prefix of the model list has
been compared or reported when it is raised". -/
theorem dbt_diff_loop_partial_prefix :
    (dbt_diff_loop cfgW [model1W, modelW]).2.isSome = true ∧
    ((dbt_diff_loop cfgW [model1W, modelW]).1.map isLocalPrinted) =
      [true] := by
  constructor
  · rfl
  · rfl

/-- C7 (amended): a configuration error raised while resolving one model's
diff variables aborts the rest of the run as a single raised error: every
model before the failing one has already been processed normally (their
actions are exactly the prefix run), and no model at or after the failing
one is compared or reported. -/
theorem dbt_diff_loop_aborts (cfg : DispatchConfig) (pre : List Model)
    (bad : Model) (rest : List Model) (e : String)
    (hpre : ∀ m ∈ pre, isErr (dispatch_model cfg m) = false)
    (hbad : dispatch_model cfg bad = Except.error e) :
    dbt_diff_loop cfg (pre ++ bad :: rest) =
      ((dbt_diff_loop cfg pre).1, some e) := by
  induction pre with
  | nil =>
    simp only [List.nil_append]
    unfold dbt_diff_loop
    rw [hbad]
  | cons m pre ih =>
    have hm : isErr (dispatch_model cfg m) = false := hpre m (by simp)
    cases hdm : dispatch_model cfg m with
    | error e' =>
      rw [hdm] at hm
      simp [isErr] at hm
    | ok a =>
      have ih' := ih (fun m' hm' => hpre m' (by simp [hm']))
      simp only [List.cons_append]
      unfold dbt_diff_loop
      rw [hdm, ih']

/-- Closed witness for `dbt_diff_loop_aborts` at the concrete
counterexample configuration: the aborted run's trace equals the one-model
prefix run's trace paired with the raised error. -/
theorem dbt_diff_loop_aborts_witness :
    ((∀ m ∈ [model1W], isErr (dispatch_model cfgW m) = false) ∧
      isErr (dispatch_model cfgW modelW) = true) ∧
    dbt_diff_loop cfgW ([model1W] ++ modelW :: []) =
      ((dbt_diff_loop cfgW [model1W]).1,
        some ("Found a custom schema on model " ++ "orders" ++
          ", but no value for\nvars:\n  data_diff:\n    prod_custom_schema:\nPlease set a value!\n" ++
          "For more details see: https://docs.datafold.com/development_testing/open_source")) := by
  refine ⟨⟨?_, by rfl⟩, ?_⟩
  · intro m hm
    simp only [List.mem_singleton] at hm
    subst hm
    rfl
  · exact dbt_diff_loop_aborts cfgW [model1W] modelW [] _
      (fun m hm => by
        simp only [List.mem_singleton] at hm
        subst hm
        rfl)
      rfl

/- ## Remote diff runner (`_cloud_diff`) -/

/-- The `pks` section of the remote result document: the row-exclusivity
pair, index 0 = prod-only rows, index 1 = dev-only rows (embedded as the
first/second components). -/
structure PksSection where
  exclusives : Int × Int
deriving DecidableEq

/-- One entry of `values.columns_diff_stats`: a column name and its match
percentage.  The service reports the percentage as a float compared against
the exact literal `100.0`; it is embedded as a rational, which is faithful
for every percentage value the comparison `x.match != 100.0` can
distinguish. -/
structure ColumnDiffStat where
  column_name : String
  matchPct : ℚ
deriving DecidableEq

/-- The `values` section of the remote result document. -/
structure ValuesSection where
  rows_with_differences : Int
  total_rows : Int
  columns_diff_stats : List ColumnDiffStat
deriving DecidableEq

/-- The `schema_` section of the remote result document: the
column-exclusivity pair (index 0 = prod-only, index 1 = dev-only) and the
type-differing columns. -/
structure SchemaSection where
  exclusive_columns : List String × List String
  column_type_differs : List String
deriving DecidableEq

/-- A terminal remote result document (`poll_data_diff_results`). -/
structure DiffResultsDoc where
  pks : PksSection
  values : ValuesSection
  schema_ : SchemaSection
deriving DecidableEq

/-- `rows_added_count = diff_results.pks.exclusives[1]` (_cloud_diff line
320). -/
def rows_added_count (r : DiffResultsDoc) : Int := r.pks.exclusives.2

/-- `rows_removed_count = diff_results.pks.exclusives[0]` (_cloud_diff line
321). -/
def rows_removed_count (r : DiffResultsDoc) : Int := r.pks.exclusives.1

/-- `rows_unchanged = int(total_rows) - int(rows_updated)` (_cloud_diff line
325). -/
def rows_unchanged (r : DiffResultsDoc) : Int :=
  r.values.total_rows - r.values.rows_with_differences

/-- `diff_percent_list = {x.column_name: str(x.match) + "%" for x in
diff_results.values.columns_diff_stats if x.match != 100.0}` (_cloud_diff
lines 326–328), keeping the percentage as a number. -/
def diff_percent_list (r : DiffResultsDoc) : List (String × ℚ) :=
  (r.values.columns_diff_stats.filter
      (fun x => decide (x.matchPct ≠ 100))).map
    (fun x => (x.column_name, x.matchPct))

/-- Modelled from the spec: `dbt_diff_string_template` from the missing
`utils.py`; §4.6 specifies a row-delta summary line with the four counts and
a labelled percent map.  Only its application site matters to the claims. -/
def dbt_diff_string_template (rows_added rows_removed rows_updated : Int)
    (rows_unchanged : String) (percents : List (String × ℚ))
    (label : String) : String :=
  "Rows added: " ++ toString rows_added ++
    " Rows removed: " ++ toString rows_removed ++
    " Rows updated: " ++ toString rows_updated ++
    " Rows unchanged: " ++ rows_unchanged ++
    " " ++ label ++ " " ++
    String.intercalate ", " (percents.map Prod.fst)

/-- The row-level half of the remote report: which branch of the
`if any([rows_added_count, rows_removed_count, rows_updated]):` at
_cloud_diff line 342 was taken, with the arguments passed on to the
formatter. -/
inductive RowReport
  | noDifferences
  | stats (rows_added rows_removed rows_updated rows_unchanged : Int)
      (percents : List (String × ℚ))
deriving DecidableEq

/-- The branch selection and argument wiring of _cloud_diff lines 342–355:
Python `any` over the three counts is integer truthiness, so the
no-differences report is produced exactly when all three are zero. -/
def cloud_row_report (r : DiffResultsDoc) : RowReport :=
  if rows_added_count r ≠ 0 ∨ rows_removed_count r ≠ 0 ∨
      r.values.rows_with_differences ≠ 0 then
    RowReport.stats (rows_added_count r) (rows_removed_count r)
      r.values.rows_with_differences (rows_unchanged r) (diff_percent_list r)
  else RowReport.noDifferences

/-- Rendering of the chosen row report to the appended output text
(_cloud_diff lines 342–355); the stats branch passes `str(rows_unchanged)`
and the percent map to `dbt_diff_string_template`. -/
def render_row_report (diff_url : String) : RowReport → String
  | RowReport.noDifferences =>
    "\n" ++ diff_url ++ "\n" ++ no_differences_template ++ "\n"
  | RowReport.stats a rm u unch pcts =>
    "\n" ++ diff_url ++ "\n " ++
      dbt_diff_string_template a rm u (toString unch) pcts
        "Value Match Percent:" ++ " \n"

/-- Python's f-string rendering of an `Optional[int]`: `None` renders as
the text "None". -/
def pyStrOptNat : Option Nat → String
  | none => "None"
  | some n => toString n

/-- Python truthiness of an `Optional[int]` (`if diff_id:`): `None` and `0`
are falsy. -/
def truthyOptNat : Option Nat → Bool
  | none => false
  | some n => n != 0

/-- The external collaborators of `_cloud_diff` for one job: the tracking
flag, the submission call (returning an optional job id), the polling call,
and the synchronous end-event emission in the `finally:` block (`Except`
because the source does not guard it). -/
structure CloudEnv where
  tracking_enabled : Bool
  create_data_diff : Except String (Option Nat)
  poll_results : Except String DiffResultsDoc
  send_end_event : Except String Unit

/-- The observable outcome of one `_cloud_diff` worker: the ordered
`rich.print` outputs, whether the start/end telemetry events were emitted
or attempted, the `error` variable at entry to the `finally:` block, the
error handed to `logger.error`, and any exception escaping the worker
function. -/
structure CloudOutcome where
  prints : List String
  startEventEmitted : Bool
  endEventAttempted : Bool
  recordedError : Option String
  loggedError : Option String
  raised : Option String
deriving DecidableEq

/-- The state at the end of the `try:` block of `_cloud_diff` (lines
310–358): prints so far, the accumulated `diff_output_str`, the submission
id, and the caught error, if any. -/
structure CloudTryResult where
  prints : List String
  diff_output_str : String
  diff_id : Option Nat
  error : Option String
deriving DecidableEq

/-- The `try:` block of `_cloud_diff` (lines 310–358): submit, print the
detail-view reference built from the raw response (before the id is
validated), raise on a missing id, poll, then build and print the report.
Every exception is caught (`except BaseException`) into `error`. -/
def cloud_try_body (env : CloudEnv) (diff_vars : TDiffVars) (host : String)
    (diff_output_str : String) : CloudTryResult :=
  match env.create_data_diff with
  | Except.error e =>
    { prints := [], diff_output_str := diff_output_str, diff_id := none
      error := some e }
  | Except.ok diff_id =>
    let diff_url := host ++ "/datadiffs/" ++ pyStrOptNat diff_id ++ "/overview"
    let p1 := diff_vars.dev_path.getLastD "" ++ ": " ++ diff_url
    match diff_id with
    | none =>
      { prints := [p1], diff_output_str := diff_output_str, diff_id := none
        error := some "Api response did not contain a diff_id" }
    | some i =>
      match env.poll_results with
      | Except.error e =>
        { prints := [p1], diff_output_str := diff_output_str
          diff_id := some i, error := some e }
      | Except.ok r =>
        let columns_added := r.schema_.exclusive_columns.2
        let columns_removed := r.schema_.exclusive_columns.1
        let column_type_changes := r.schema_.column_type_differs
        let diff_output_str := if !columns_added.isEmpty then
          diff_output_str ++ columns_added_template columns_added
          else diff_output_str
        let diff_output_str := if !columns_removed.isEmpty then
          diff_output_str ++ columns_removed_template columns_removed
          else diff_output_str
        let diff_output_str := if !column_type_changes.isEmpty then
          diff_output_str ++ columns_type_changed_template column_type_changes
          else diff_output_str
        let out := diff_output_str ++
          render_row_report diff_url (cloud_row_report r)
        { prints := [p1, out], diff_output_str := out, diff_id := some i
          error := none }

/-- `_cloud_diff` from `dbt.py`: the `try:` body above, then the `finally:`
block — which emits the end telemetry event SYNCHRONOUSLY when tracking is
enabled (an exception there escapes the worker and skips the error report)
— and then, when an error was recorded, prints the partial report plus the
detail-view reference (if a truthy id exists) and logs the error. -/
def cloud_diff (env : CloudEnv) (diff_vars : TDiffVars) (host : String) :
    CloudOutcome :=
  let diff_output_str := diff_output_base
    (String.intercalate "." diff_vars.dev_path)
    (String.intercalate "." diff_vars.prod_path)
  let t := cloud_try_body env diff_vars host diff_output_str
  match (if env.tracking_enabled then env.send_end_event
      else Except.ok ()) with
  | Except.error e =>
    { prints := t.prints
      startEventEmitted := env.tracking_enabled
      endEventAttempted := env.tracking_enabled
      recordedError := t.error
      loggedError := none
      raised := some e }
  | Except.ok _ =>
    match t.error with
    | some err =>
      { prints := t.prints ++ [t.diff_output_str] ++
          (if truthyOptNat t.diff_id then
            [host ++ "/datadiffs/" ++ toString (t.diff_id.getD 0) ++
              "/overview" ++ " \n"]
          else [])
        startEventEmitted := env.tracking_enabled
        endEventAttempted := env.tracking_enabled
        recordedError := some err
        loggedError := some err
        raised := none }
    | none =>
      { prints := t.prints
        startEventEmitted := env.tracking_enabled
        endEventAttempted := env.tracking_enabled
        recordedError := none
        loggedError := none
        raised := none }

/- ## Claim theorems: remote result processing (C5, C9) -/

/-- C5: the remote report takes rows-added from index 1 and rows-removed
from index 0 of the row-exclusivity pair, rows-unchanged is total rows minus
rows-updated, and the no-differences branch is chosen exactly when
rows-added, rows-removed and rows-updated are all zero (Python `any` over
integer truthiness). -/
theorem cloud_row_report_correct (r : DiffResultsDoc) :
    (cloud_row_report r = RowReport.noDifferences ↔
      (r.pks.exclusives.2 = 0 ∧ r.pks.exclusives.1 = 0 ∧
        r.values.rows_with_differences = 0)) ∧
    (∀ a rm u unch pcts,
      cloud_row_report r = RowReport.stats a rm u unch pcts →
      a = r.pks.exclusives.2 ∧ rm = r.pks.exclusives.1 ∧
        u = r.values.rows_with_differences ∧
        unch = r.values.total_rows - r.values.rows_with_differences ∧
        pcts = diff_percent_list r) := by
  constructor
  · unfold cloud_row_report
    split
    · rename_i h
      constructor
      · intro hc
        exact absurd hc (by simp)
      · rintro ⟨h1, h2, h3⟩
        rcases h with h | h | h
        · exact absurd h1 h
        · exact absurd h2 h
        · exact absurd h3 h
    · rename_i h
      push_neg at h
      simp only [true_iff]
      exact ⟨h.1, h.2.1, h.2.2⟩
  · intro a rm u unch pcts h
    unfold cloud_row_report at h
    split at h
    · cases h
      exact ⟨rfl, rfl, rfl, rfl, rfl⟩
    · exact absurd h (by simp)

/-- Closed witness for `cloud_row_report_correct`: an all-zero result
document picks the no-differences branch, and a document with updated rows
yields stats whose unchanged count is `total_rows - rows_updated`. -/
theorem cloud_row_report_correct_witness :
    cloud_row_report
      { pks := { exclusives := (0, 0) }
        values := { rows_with_differences := 0, total_rows := 100
                    columns_diff_stats := [] }
        schema_ := { exclusive_columns := ([], []), column_type_differs := [] } } =
      RowReport.noDifferences :=
  (cloud_row_report_correct _).1.mpr ⟨rfl, rfl, rfl⟩

/-- C9 counterexample: a result document whose only column reports a match
percentage of 150% — at or above 100% — still appears in the per-column
match-percentage map, because the code filters with `x.match != 100.0`
rather than `x.match < 100.0`.  This refutes "every column with a match
percentage of 100% or more is omitted". -/
theorem diff_percent_list_over_100 :
    diff_percent_list
      { pks := { exclusives := (0, 0) }
        values := { rows_with_differences := 0, total_rows := 1
                    columns_diff_stats := [{ column_name := "c", matchPct := 150 }] }
        schema_ := { exclusive_columns := ([], []), column_type_differs := [] } } =
      [("c", 150)] := by
  rfl

/-- C9 (amended): the per-column match-percentage map contains exactly the
columns whose match percentage differs from 100%: every reported column
whose percentage is not 100 appears with its percentage, and every map
entry has a percentage other than 100 and comes from a reported column. -/
theorem diff_percent_list_filters (r : DiffResultsDoc) :
    (∀ x ∈ r.values.columns_diff_stats, x.matchPct ≠ 100 →
      (x.column_name, x.matchPct) ∈ diff_percent_list r) ∧
    (∀ p ∈ diff_percent_list r, p.2 ≠ 100 ∧
      ∃ x ∈ r.values.columns_diff_stats,
        x.column_name = p.1 ∧ x.matchPct = p.2) := by
  constructor
  · intro x hx hne
    unfold diff_percent_list
    rw [List.mem_map]
    exact ⟨x, List.mem_filter.mpr ⟨hx, by simpa using hne⟩, rfl⟩
  · intro p hp
    unfold diff_percent_list at hp
    rw [List.mem_map] at hp
    obtain ⟨x, hx, hpx⟩ := hp
    rw [List.mem_filter] at hx
    have hne : x.matchPct ≠ 100 := by simpa using hx.2
    refine ⟨?_, x, hx.1, ?_, ?_⟩
    · rw [← hpx]
      exact hne
    · rw [← hpx]
    · rw [← hpx]

/-- Closed witness for `diff_percent_list_filters`: a 99%-match column of a
concrete document appears in the map. -/
theorem diff_percent_list_filters_witness :
    ("c", (99 : ℚ)) ∈ diff_percent_list
      { pks := { exclusives := (1, 2) }
        values := { rows_with_differences := 3, total_rows := 10
                    columns_diff_stats :=
                      [{ column_name := "a", matchPct := 100 },
                       { column_name := "c", matchPct := 99 }] }
        schema_ := { exclusive_columns := ([], []), column_type_differs := [] } } :=
  (diff_percent_list_filters _).1 { column_name := "c", matchPct := 99 }
    (by simp) (by norm_num)

/- ## Claim theorems: telemetry boundary (C8) and URL-before-validation
(C10) -/

/-- A concrete job environment for C8: tracking enabled, submission
succeeds with id 7, polling fails, and the end-event emission throws. -/
def cloudEnvBadTelemetry : CloudEnv :=
  { tracking_enabled := true
    create_data_diff := Except.ok (some 7)
    poll_results := Except.error "poll failed"
    send_end_event := Except.error "telemetry down" }

/-- Concrete diff variables for the cloud witnesses. -/
def diffVarsW : TDiffVars :=
  { dev_path := ["d", "s", "t"], prod_path := ["d", "p", "t"]
    primary_keys := ["id"], connection := [], threads := none
    where_filter := none, include_columns := [], exclude_columns := [] }

/-- C8: evaluation of `_cloud_diff` at the failing input.  The end-event
emission in the `finally:` block is a plain synchronous `send_event_json`
call; when it throws, the exception escapes the worker function
(`raised = some "telemetry down"`), the job's recorded error is never
logged, and the pending error report and detail-view reference are never
printed — only the pre-failure URL line was.  This contradicts the claim
(and the spec's stated intent) that telemetry failures are swallowed at the
worker boundary and cannot suppress the error report. -/
theorem cloud_diff_end_event_not_swallowed :
    (cloud_diff cloudEnvBadTelemetry diffVarsW "https://host").raised =
        some "telemetry down" ∧
    (cloud_diff cloudEnvBadTelemetry diffVarsW "https://host").recordedError =
        some "poll failed" ∧
    (cloud_diff cloudEnvBadTelemetry diffVarsW "https://host").loggedError =
        none ∧
    (cloud_diff cloudEnvBadTelemetry diffVarsW "https://host").prints =
        ["t: https://host/datadiffs/7/overview"] := by
  refine ⟨rfl, rfl, rfl, rfl⟩

/-- The first print of the `try:` block whenever the submission call
returns: the detail-view line built from the raw (unvalidated) response. -/
theorem cloud_try_body_first_print (env : CloudEnv) (diff_vars : TDiffVars)
    (host base : String) (v : Option Nat)
    (h : env.create_data_diff = Except.ok v) :
    ∃ rest, (cloud_try_body env diff_vars host base).prints =
      (diff_vars.dev_path.getLastD "" ++ ": " ++
        (host ++ "/datadiffs/" ++ pyStrOptNat v ++ "/overview")) :: rest := by
  unfold cloud_try_body
  rw [h]
  cases v with
  | none => exact ⟨[], rfl⟩
  | some i =>
    cases hp : env.poll_results with
    | error e => exact ⟨[], rfl⟩
    | ok r => exact ⟨_, rfl⟩

/-- C10: whenever the submission call returns, the job's detail-view URL is
printed from the raw returned value before validation; in particular a
missing id first prints a URL whose id segment is the text "None"
(`pyStrOptNat none`), and only afterwards is the missing id recorded and
logged as the job's failure, with no second URL printed on the error path
(the falsy id suppresses it). -/
theorem cloud_diff_url_before_validation (env : CloudEnv)
    (diff_vars : TDiffVars) (host : String)
    (hsend : env.tracking_enabled = true →
      env.send_end_event = Except.ok ()) :
    (∀ v, env.create_data_diff = Except.ok v →
      (cloud_diff env diff_vars host).prints.head? =
        some (diff_vars.dev_path.getLastD "" ++ ": " ++
          (host ++ "/datadiffs/" ++ pyStrOptNat v ++ "/overview"))) ∧
    (env.create_data_diff = Except.ok none →
      (cloud_diff env diff_vars host).prints =
        [diff_vars.dev_path.getLastD "" ++ ": " ++
            (host ++ "/datadiffs/" ++ pyStrOptNat none ++ "/overview"),
          diff_output_base (String.intercalate "." diff_vars.dev_path)
            (String.intercalate "." diff_vars.prod_path)] ∧
      (cloud_diff env diff_vars host).recordedError =
        some "Api response did not contain a diff_id" ∧
      (cloud_diff env diff_vars host).loggedError =
        some "Api response did not contain a diff_id" ∧
      (cloud_diff env diff_vars host).raised = none) := by
  have hse : (if env.tracking_enabled then env.send_end_event
      else Except.ok ()) = Except.ok () := by
    cases henv : env.tracking_enabled with
    | true => simpa using hsend henv
    | false => simp
  constructor
  · intro v hv
    obtain ⟨rest, hrest⟩ := cloud_try_body_first_print env diff_vars host
      (diff_output_base (String.intercalate "." diff_vars.dev_path)
        (String.intercalate "." diff_vars.prod_path)) v hv
    unfold cloud_diff
    rw [hse]
    cases ht : (cloud_try_body env diff_vars host
        (diff_output_base (String.intercalate "." diff_vars.dev_path)
          (String.intercalate "." diff_vars.prod_path))).error with
    | some err => simp [ht, hrest]
    | none => simp [ht, hrest]
  · intro hv
    unfold cloud_diff cloud_try_body
    rw [hv, hse]
    simp [truthyOptNat]

/-- Closed witness for `cloud_diff_url_before_validation`: a concrete job
whose submission returns no id prints the literal URL
"https://host/datadiffs/None/overview" first, then only the base report
line, records and logs the missing-id error, and raises nothing. -/
theorem cloud_diff_url_before_validation_witness :
    (cloud_diff
        { tracking_enabled := false
          create_data_diff := Except.ok none
          poll_results := Except.error "unreached"
          send_end_event := Except.ok () } diffVarsW "https://host").prints =
      ["t: https://host/datadiffs/None/overview",
        "\n[green]d.p.t <> d.s.t[/] \n"] ∧
    (cloud_diff
        { tracking_enabled := false
          create_data_diff := Except.ok none
          poll_results := Except.error "unreached"
          send_end_event := Except.ok () } diffVarsW "https://host").raised =
      none := by
  have h := (cloud_diff_url_before_validation
    { tracking_enabled := false
      create_data_diff := Except.ok none
      poll_results := Except.error "unreached"
      send_end_event := Except.ok () } diffVarsW "https://host"
    (fun hc => by simp at hc)).2 rfl
  exact ⟨h.1, h.2.2.2⟩

end DataDiff
